import Mathlib

/-!
Shallow embedding of `src/main_final.py` (Chicago Health Story Generator), a
linear batch pipeline: load a polygon file and a tabular file, left-join the
indicator rows onto the polygons by a normalized text key, render six output
artifacts (poster PNG, interactive HTML map, top-10 CSV table, bar chart,
histogram, narrative HTML), with two upfront file-existence checks and one
column-existence check.

Numeric cells are modelled as rationals (`ℚ`); a missing value (NaN) is
`Option.none`.  File-system effects are modelled as an explicit event trace.
-/

namespace ChicagoHealth

/-! ### Path constants (main_final.py lines 15-31) -/

def BASE : String := "/home/sam/projects/iitech/data_viz/mod9"

def DATA : String := BASE ++ "/data"

def OUT : String := BASE ++ "/output"

def GEO_PATH : String := DATA ++ "/chicago-community-areas.geojson"

def CSV_PATH : String :=
  DATA ++ "/public-health-statistics-selected-public-health-indicators-by-chicago-community-area-1.csv"

/-- The selected metric column (main_final.py line 48). -/
def metric : String := "Low Birth Weight"

/-! ### Data model -/

/-- A raw identifier cell: either a number (as pandas reads an integer CSV
column) or a piece of text (as the GeoJSON attribute is stored).  `astype(str)`
collapses both to text. -/
inductive CellVal where
  | num : Int → CellVal
  | str : String → CellVal
deriving DecidableEq

/-- `Series.astype(str)` on one cell: Python `str` of an int, identity on text. -/
def astypeCell : CellVal → String
  | .num n => toString n
  | .str s => s

/-- The polygon geometry; the only aspect the script uses is the geometric
centroid (`row['geometry'].centroid`), so the centroid coordinates stand for
the geometry. -/
structure Geometry where
  centroidX : ℚ
  centroidY : ℚ
deriving DecidableEq

/-- One record of the boundary file: the `area_numbe` identifier attribute and
the polygon. -/
structure GeoRecord where
  area_numbe : CellVal
  geometry : Geometry
deriving DecidableEq

/-- One row of the tabular indicator file, restricted to the columns the
script reads: `Community Area` (join key), `Community Area Name`, and the
selected metric column (`none` models NaN). -/
structure DfRecord where
  communityArea : CellVal
  communityAreaName : String
  metric : Option ℚ
deriving DecidableEq

/-- The tabular file as loaded by `pd.read_csv`: the column names plus the
rows (restricted to the modelled columns). -/
structure Csv where
  columns : List String
  rows : List DfRecord
deriving DecidableEq

/-! ### Key normalization (main_final.py lines 56-57) -/

/-- Line 56: `df["Community Area"] = df["Community Area"].astype(str)`
applied to one row. -/
def astypeD (d : DfRecord) : DfRecord :=
  { d with communityArea := .str (astypeCell d.communityArea) }

/-- Line 56 applied to the whole indicator table (the key column is
overwritten with its string form). -/
def astypeDf (rows : List DfRecord) : List DfRecord := rows.map astypeD

/-- Line 57: `geo["area_numbe"] = geo["area_numbe"].astype(str)` applied to
one record. -/
def astypeG (g : GeoRecord) : GeoRecord :=
  { g with area_numbe := .str (astypeCell g.area_numbe) }

/-- Line 57 applied to the whole boundary table. -/
def astypeGeo (gs : List GeoRecord) : List GeoRecord := gs.map astypeG

/-! ### The left join (main_final.py line 59) -/

/-- One record of `merged`: the polygon record together with the matched
indicator row, or `none` when no tabular key matched (pandas fills the
indicator columns with NaN in that case). -/
structure MergedRecord where
  geo : GeoRecord
  ind : Option DfRecord
deriving DecidableEq

/-- The rows `merge` produces for one left (geometry) record: one output row
per matching right row, or a single row with null indicator columns when
nothing matches. -/
def joinRow (df : List DfRecord) (g : GeoRecord) : List MergedRecord :=
  let ms := df.filter fun d => decide (d.communityArea = g.area_numbe)
  if ms.isEmpty then [⟨g, none⟩] else ms.map fun d => ⟨g, some d⟩

/-- Line 59: `geo.merge(df, left_on="area_numbe", right_on="Community Area",
how="left")`. -/
def mergeLeft (geo : List GeoRecord) (df : List DfRecord) : List MergedRecord :=
  geo.flatMap (joinRow df)

/-- The metric cell of a merged row (`row[metric]` on `merged`): the matched
indicator row's metric, NaN when the join found no match. -/
def mergedMetric (m : MergedRecord) : Option ℚ :=
  m.ind.bind DfRecord.metric

/-! ### Numeric formatting (`"%.1f"` and `"%.2f"` f-string specifiers) -/

/-- Round-half-to-even of the fraction `n / d` (with `d > 0`) to an integer:
the rounding used by Python's fixed-point formatting (the underlying binary
floating-point representation is abstracted by exact rational rounding). -/
def roundHalfEvenFrac (n d : ℤ) : ℤ :=
  let f : ℤ := n.fdiv d
  let r : ℤ := n - f * d
  if 2 * r < d then f
  else if d < 2 * r then f + 1
  else if f % 2 = 0 then f else f + 1

/-- Render an integer number of tenths as a decimal string, e.g. `105 ↦ "10.5"`. -/
def tenthsStr (n : ℤ) : String :=
  let m := n.natAbs
  (if n < 0 then "-" else "") ++ toString (m / 10) ++ "." ++ toString (m % 10)

/-- Python `f"{v:.1f}"` on a numeric value: `v` scaled to tenths, rounded
half-to-even, rendered with one decimal digit. -/
def fmt1 (q : ℚ) : String := tenthsStr (roundHalfEvenFrac (10 * q.num) (q.den : ℤ))

/-- Render an integer number of hundredths as a decimal string,
e.g. `1507 ↦ "15.07"`. -/
def hundredthsStr (n : ℤ) : String :=
  let m := n.natAbs
  (if n < 0 then "-" else "") ++ toString (m / 100) ++ "." ++
    (if m % 100 < 10 then "0" else "") ++ toString (m % 100)

/-- Python `f"{v:.2f}"` on a numeric value: `v` scaled to hundredths, rounded
half-to-even, rendered with two decimal digits. -/
def fmt2 (q : ℚ) : String := hundredthsStr (roundHalfEvenFrac (100 * q.num) (q.den : ℤ))

/-! ### Poster labels (main_final.py lines 71-82) -/

/-- The centroid labels the poster renderer draws: one `ax.text` call per
merged row whose metric is non-null, at the polygon centroid, showing the
value formatted with `"%.1f"`.  Rows with a null metric produce no label. -/
def posterLabels (merged : List MergedRecord) : List (ℚ × ℚ × String) :=
  merged.filterMap fun m =>
    (mergedMetric m).map fun v =>
      (m.geo.geometry.centroidX, m.geo.geometry.centroidY, fmt1 v)

/-! ### Top-10 selection (main_final.py line 118) -/

/-- The sort key `nlargest` uses (a null metric never survives the NaN drop,
so the default only pads the type). -/
def metricVal (d : DfRecord) : ℚ := d.metric.getD 0

/-- Descending order on the metric column. -/
def metricGe (a b : DfRecord) : Prop := metricVal b ≤ metricVal a

instance : DecidableRel metricGe := fun a b =>
  inferInstanceAs (Decidable (metricVal b ≤ metricVal a))

instance : IsTotal DfRecord metricGe :=
  ⟨fun a b => le_total (metricVal b) (metricVal a)⟩

instance : IsTrans DfRecord metricGe :=
  ⟨fun _ _ _ h1 h2 => le_trans h2 h1⟩

/-- Line 118: `df.nlargest(10, metric)` — drop the rows whose metric is NaN,
stably sort the rest by the metric in descending order, keep the first `n`. -/
def nlargest (n : Nat) (rows : List DfRecord) : List DfRecord :=
  (List.insertionSort metricGe (rows.filter fun d => d.metric.isSome)).take n

/-! ### CSV serialization of the top-10 table (main_final.py line 119) -/

/-- A metric cell as `to_csv` renders it (empty for NaN; the exact numeral
format of the library is abstracted by the canonical rational rendering). -/
def metricCsvCell : Option ℚ → String
  | none => ""
  | some v => toString v

/-- One row of the written table. -/
def rowCsv (d : DfRecord) : String :=
  astypeCell d.communityArea ++ "," ++ d.communityAreaName ++ "," ++ metricCsvCell d.metric

/-- Line 119: `top10.to_csv(TABLE_OUT, index=False)` — header line then one
line per record, preserving all (modelled) columns. -/
def csvOfDf (rows : List DfRecord) : String :=
  String.intercalate "\n"
    (("Community Area,Community Area Name," ++ metric) :: rows.map rowCsv) ++ "\n"

/-! ### Descriptive statistics (main_final.py lines 144-146) -/

/-- The metric column with nulls removed (the values pandas aggregations see). -/
def nonNullVals (rows : List DfRecord) : List ℚ :=
  rows.filterMap DfRecord.metric

/-- The running (sum, count) fold of `Series.mean`, skipping NaN cells. -/
def sumCountStep (acc : ℚ × ℕ) (d : DfRecord) : ℚ × ℕ :=
  match d.metric with
  | some v => (acc.1 + v, acc.2 + 1)
  | none => acc

/-- Line 144: `df[metric].mean()` — NaN (here `none`) when no value exists. -/
def seriesMean (rows : List DfRecord) : Option ℚ :=
  let sc := rows.foldl sumCountStep ((0 : ℚ), (0 : ℕ))
  if sc.2 = 0 then none else some (sc.1 / (sc.2 : ℚ))

/-- The running maximum fold of `Series.max`, skipping NaN cells. -/
def maxStep (acc : Option ℚ) (d : DfRecord) : Option ℚ :=
  match acc, d.metric with
  | none, m => m
  | some x, some v => some (max x v)
  | some x, none => some x

/-- Line 145: `df[metric].max()` — NaN (here `none`) when no value exists. -/
def seriesMax (rows : List DfRecord) : Option ℚ :=
  rows.foldl maxStep none

/-- Line 146, selection part: `df.loc[df[metric] == max_val]`.  An elementwise
comparison against NaN is everywhere false, so an all-null column selects
nothing. -/
def maxSelection (rows : List DfRecord) : List DfRecord :=
  match seriesMax rows with
  | none => []
  | some m => rows.filter fun d => decide (d.metric = some m)

/-- Line 146: `df.loc[df[metric] == max_val, "Community Area Name"].values[0]`;
`none` models the `IndexError` raised by `[0]` on an empty selection. -/
def maxAreaName (rows : List DfRecord) : Option String :=
  ((maxSelection rows).map DfRecord.communityAreaName).head?

/-! ### Narrative document (main_final.py lines 148-162) -/

/-- The interpolated `story_html` template (lines 148-160).  Reached only
after the `values[0]` lookup succeeded, hence the mean and max exist. -/
def storyText (rows : List DfRecord) (maxArea : String) : String :=
  "\n<h1>Chicago Public Health Story – " ++ metric ++ "</h1>\n" ++
  "<p>The map above highlights how the <strong>" ++ metric ++
  "</strong> indicator varies across Chicago’s 77 community areas.</p>\n\n" ++
  "<p>The citywide average is <strong>" ++ fmt2 ((seriesMean rows).getD 0) ++
  "</strong>, but some communities face significantly higher challenges.</p>\n\n" ++
  "<p>The highest value is found in <strong>" ++ maxArea ++
  "</strong>, reaching <strong>" ++ fmt2 ((seriesMax rows).getD 0) ++
  "</strong>.  \nThis suggests potential disparities in prenatal care, maternal health services, and overall socio-economic conditions.</p>\n\n" ++
  "<p>The bar charts and histogram provide additional context, showing which neighborhoods are most affected and how this indicator is distributed across the city.</p>\n\n" ++
  "<p>Use this story along with the poster and interactive map to support reporting, presentations, or policy discussion.</p>\n"

/-! ### Rendered artifact contents -/

/-- Modelled from the spec: the poster raster bytes are produced by the
plotting library (not code of this repository); the spec allows raster
outputs to vary in embedded metadata such as timestamps, modelled by the
ambient `meta` argument.  The content is otherwise a function of the joined
collection (colors, borders, title, and the centroid labels of lines 71-82). -/
def posterContent (merged : List MergedRecord) (meta : ℕ) : String :=
  "png-poster;meta=" ++ toString meta ++ ";labels=" ++
    String.intercalate "|" ((posterLabels merged).map fun l => l.2.2)

/-- Modelled from the spec: the folium HTML document (lines 90-113); may embed
ambient metadata (generated element identifiers), modelled by `meta`. -/
def mapContent (merged : List MergedRecord) (df : List DfRecord) (meta : ℕ) : String :=
  "html-map;meta=" ++ toString meta ++ ";rows=" ++ toString df.length ++
    ";labels=" ++ String.intercalate "|" ((posterLabels merged).map fun l => l.2.2)

/-- Modelled from the spec: the bar-chart raster (lines 122-128); may embed
ambient metadata, modelled by `meta`. -/
def barContent (top10 : List DfRecord) (meta : ℕ) : String :=
  "png-bar;meta=" ++ toString meta ++ ";bars=" ++
    String.intercalate "|" (top10.map fun d => astypeCell d.communityArea)

/-- Modelled from the spec: the histogram raster (lines 132-138); may embed
ambient metadata, modelled by `meta`. -/
def histContent (rows : List DfRecord) (meta : ℕ) : String :=
  "png-hist;meta=" ++ toString meta ++ ";values=" ++ toString (nonNullVals rows).length

/-! ### The script as an event trace -/

/-- The six output artifacts (main_final.py lines 26-31). -/
inductive OutputFile where
  | poster
  | htmlMap
  | barChart
  | histogram
  | table
  | story
deriving DecidableEq

/-- One observable file-system effect of the run. -/
inductive Event where
  | mkdirOutput : Event
  | write : OutputFile → String → Event
  | raise : String → Event
deriving DecidableEq

/-- The world the script runs in: the contents of the two input files (`none`
when the file is absent) and the ambient metadata the rendering libraries may
embed into raster/HTML outputs. -/
structure Env where
  geoFile : Option (List GeoRecord)
  csvFile : Option Csv
  ambientMeta : ℕ

/-- The numpy message of `values[0]` on an empty selection (line 146). -/
def indexErrMsg : String := "index 0 is out of bounds for axis 0 with size 0"

/-- The whole script, top to bottom, as the ordered trace of its effects:
`os.makedirs` (line 19), the two existence checks (lines 36-40), the column
check (lines 50-51), key normalization and merge (lines 56-59), then the six
writes in source order (lines 84, 113, 119, 128, 138, 162), with the
narrative write aborted by an `IndexError` when the maximum-area lookup
(line 146) hits an empty selection. -/
def runScript (env : Env) : List Event :=
  Event.mkdirOutput ::
    match env.geoFile with
    | none => [Event.raise ("Missing GeoJSON: " ++ GEO_PATH)]
    | some geo =>
      match env.csvFile with
      | none => [Event.raise ("Missing CSV: " ++ CSV_PATH)]
      | some csv =>
        if metric ∈ csv.columns then
          let df := astypeDf csv.rows
          let geo2 := astypeGeo geo
          let merged := mergeLeft geo2 df
          Event.write .poster (posterContent merged env.ambientMeta) ::
          Event.write .htmlMap (mapContent merged df env.ambientMeta) ::
          Event.write .table (csvOfDf (nlargest 10 df)) ::
          Event.write .barChart (barContent (nlargest 10 df) env.ambientMeta) ::
          Event.write .histogram (histContent df env.ambientMeta) ::
          (match maxAreaName df with
           | some an => [Event.write .story (storyText df an)]
           | none => [Event.raise indexErrMsg])
        else [Event.raise ("Column \"" ++ metric ++ "\" not found in CSV.")]

/-- The output files a trace actually wrote, in order. -/
def writtenFiles (evs : List Event) : List OutputFile :=
  evs.filterMap fun e =>
    match e with
    | .write f _ => some f
    | _ => none

/-- The contents written to one particular output file during a trace. -/
def contentOf (f : OutputFile) (evs : List Event) : List String :=
  evs.filterMap fun e =>
    match e with
    | .write f2 c => if f2 = f then some c else none
    | _ => none

/-- The tail of the pipeline as a function of the two already-normalized
collections: everything after lines 56-57 reads only the normalized tables. -/
def scriptFromNormalized (geo2 : List GeoRecord) (df : List DfRecord) (meta : ℕ) :
    List Event :=
  Event.mkdirOutput ::
  Event.write .poster (posterContent (mergeLeft geo2 df) meta) ::
  Event.write .htmlMap (mapContent (mergeLeft geo2 df) df meta) ::
  Event.write .table (csvOfDf (nlargest 10 df)) ::
  Event.write .barChart (barContent (nlargest 10 df) meta) ::
  Event.write .histogram (histContent df meta) ::
  (match maxAreaName df with
   | some an => [Event.write .story (storyText df an)]
   | none => [Event.raise indexErrMsg])

/-! ### Concrete sample data (the spec's three-polygon scenario) -/

/-- Three polygons with identifiers "1", "2", "3" (GeoJSON stores them as
text). -/
def sampleGeo : List GeoRecord :=
  [⟨.str "1", ⟨0, 0⟩⟩, ⟨.str "2", ⟨1, 0⟩⟩, ⟨.str "3", ⟨2, 0⟩⟩]

/-- Tabular rows (1, "AreaOne", 10.0), (2, "AreaTwo", 20.0),
(3, "AreaThree", null); the key column is numeric as read from CSV. -/
def sampleDf : List DfRecord :=
  [⟨.num 1, "AreaOne", some 10⟩, ⟨.num 2, "AreaTwo", some 20⟩,
   ⟨.num 3, "AreaThree", none⟩]

/-- The scenario's tabular file. -/
def sampleCsv : Csv :=
  ⟨["Community Area", "Community Area Name", metric], sampleDf⟩

/-! ### Helper lemmas -/

/-- The first surviving element of a filter is the first match. -/
theorem head_of_filter {α : Type} (p : α → Bool) (l : List α) :
    (l.filter p).head? = l.find? p := by
  induction l with
  | nil => rfl
  | cons a l ih =>
    by_cases h : p a <;> simp [List.filter_cons, List.find?_cons, h, ih]

/-- A list whose key images are pairwise distinct has at most one element with
any given key. -/
theorem length_filter_le_one {α β : Type} [DecidableEq β] (f : α → β) (l : List α)
    (h : l.Pairwise fun a b => f a ≠ f b) (k : β) :
    (l.filter fun a => decide (f a = k)).length ≤ 1 := by
  induction l with
  | nil => simp
  | cons a l ih =>
    rcases List.pairwise_cons.mp h with ⟨ha, hl⟩
    by_cases hk : f a = k
    · have hnil : (l.filter fun a => decide (f a = k)) = [] := by
        refine List.filter_eq_nil_iff.mpr fun b hb => ?_
        simp only [decide_eq_true_eq]
        exact fun hbk => (ha b hb) (hk.trans hbk.symm)
      simp [List.filter_cons, hk, hnil]
    · simpa [List.filter_cons, hk] using ih hl

/-- When every key occurs at most once on the right, the left join emits
exactly one row per left row. -/
theorem mergeLeft_length_of_unique (geo : List GeoRecord) (df : List DfRecord)
    (h : ∀ k, (df.filter fun d => decide (d.communityArea = k)).length ≤ 1) :
    (mergeLeft geo df).length = geo.length := by
  induction geo with
  | nil => rfl
  | cons g gs ih =>
    have hlen : (joinRow df g).length = 1 := by
      unfold joinRow
      by_cases he : (df.filter fun d => decide (d.communityArea = g.area_numbe)).isEmpty
      · simp [he]
      · simp only [he, Bool.false_eq_true, if_false, List.length_map]
        have h1 := h g.area_numbe
        have h2 : (df.filter fun d => decide (d.communityArea = g.area_numbe)).length ≠ 0 := by
          simpa [List.isEmpty_iff, List.length_eq_zero] using he
        omega
    show (List.flatMap (g :: gs) (joinRow df)).length = gs.length + 1
    rw [List.flatMap_cons, List.length_append, hlen]
    have ih2 : (gs.flatMap (joinRow df)).length = gs.length := ih
    omega

/-- In a merged row the indicator side is null exactly when no right row
carries the row's key. -/
theorem mergeLeft_ind_none_iff (geo : List GeoRecord) (df : List DfRecord) :
    ∀ m ∈ mergeLeft geo df,
      (m.ind = none ↔ ∀ d ∈ df, d.communityArea ≠ m.geo.area_numbe) := by
  intro m hm
  rcases List.mem_flatMap.mp hm with ⟨g, _, hmg⟩
  unfold joinRow at hmg
  by_cases he : (df.filter fun d => decide (d.communityArea = g.area_numbe)).isEmpty
  · rw [if_pos he, List.mem_singleton] at hmg
    subst hmg
    have hnil : (df.filter fun d => decide (d.communityArea = g.area_numbe)) = [] :=
      List.isEmpty_iff.mp he
    simp only [true_iff]
    intro d hd
    have := List.filter_eq_nil_iff.mp hnil d hd
    simpa using this
  · rw [if_neg he] at hmg
    rcases List.mem_map.mp hmg with ⟨d, hdms, rfl⟩
    rcases List.mem_filter.mp hdms with ⟨hddf, hdk⟩
    simp only [decide_eq_true_eq] at hdk
    constructor
    · intro hc; exact Option.noConfusion hc
    · intro hall; exact absurd hdk (hall d hddf)

/-! ### C1 -/

/-- C1: for valid inputs (the indicator table has one row per community area,
i.e. pairwise-distinct normalized keys) sharing at least one matching
identifier, the left join contains exactly one record per geometry record —
its length equals the polygon count — and a joined record's indicator columns
are null exactly when no tabular record carries its key. -/
theorem joined_left_join_cardinality (geo : List GeoRecord) (df : List DfRecord)
    (hvalid : df.Pairwise fun a b => astypeCell a.communityArea ≠ astypeCell b.communityArea)
    (hshare : ∃ g ∈ geo, ∃ d ∈ df,
      astypeCell g.area_numbe = astypeCell d.communityArea) :
    (mergeLeft (astypeGeo geo) (astypeDf df)).length = geo.length ∧
    ∀ m ∈ mergeLeft (astypeGeo geo) (astypeDf df),
      (m.ind = none ↔ ∀ d ∈ astypeDf df, d.communityArea ≠ m.geo.area_numbe) := by
  constructor
  · have hpair : (astypeDf df).Pairwise fun a b => a.communityArea ≠ b.communityArea := by
      rw [astypeDf, List.pairwise_map]
      refine hvalid.imp ?_
      intro a b hab hc
      exact hab (by simpa [astypeD] using hc)
    have huniq := length_filter_le_one DfRecord.communityArea (astypeDf df) hpair
    rw [mergeLeft_length_of_unique (astypeGeo geo) (astypeDf df) huniq]
    simp [astypeGeo]
  · exact mergeLeft_ind_none_iff (astypeGeo geo) (astypeDf df)

/-- Witness for C1 on the spec's three-polygon scenario. -/
theorem joined_left_join_cardinality_witness :
    (sampleDf.Pairwise fun a b =>
      astypeCell a.communityArea ≠ astypeCell b.communityArea) ∧
    (∃ g ∈ sampleGeo, ∃ d ∈ sampleDf,
      astypeCell g.area_numbe = astypeCell d.communityArea) ∧
    (mergeLeft (astypeGeo sampleGeo) (astypeDf sampleDf)).length = sampleGeo.length :=
  ⟨by decide, by decide,
    (joined_left_join_cardinality sampleGeo sampleDf (by decide) (by decide)).1⟩

/-- The running (sum, count) fold adds the non-null values and counts them. -/
theorem foldl_sumCount (rows : List DfRecord) (s : ℚ) (c : ℕ) :
    rows.foldl sumCountStep (s, c) =
      (s + (nonNullVals rows).sum, c + (nonNullVals rows).length) := by
  induction rows generalizing s c with
  | nil => simp [nonNullVals]
  | cons d rows ih =>
    cases hm : d.metric with
    | none =>
      rw [List.foldl_cons]
      have hstep : sumCountStep (s, c) d = (s, c) := by simp [sumCountStep, hm]
      rw [hstep, ih]
      simp [nonNullVals, List.filterMap_cons, hm]
    | some v =>
      rw [List.foldl_cons]
      have hstep : sumCountStep (s, c) d = (s + v, c + 1) := by simp [sumCountStep, hm]
      rw [hstep, ih]
      simp only [nonNullVals, List.filterMap_cons, hm, List.sum_cons, List.length_cons,
        Prod.mk.injEq]
      constructor
      · ring
      · omega

/-- `Series.mean` is the arithmetic mean of the non-null values. -/
theorem seriesMean_eq (rows : List DfRecord) (h : nonNullVals rows ≠ []) :
    seriesMean rows =
      some ((nonNullVals rows).sum / ((nonNullVals rows).length : ℚ)) := by
  unfold seriesMean
  rw [foldl_sumCount]
  have hlen : (nonNullVals rows).length ≠ 0 := by
    simpa [List.length_eq_zero] using h
  simp [hlen]

/-- The running maximum fold, once seeded, is the fold of `max` over the
remaining non-null values. -/
theorem foldl_maxStep_some (rows : List DfRecord) (x : ℚ) :
    rows.foldl maxStep (some x) = some ((nonNullVals rows).foldl max x) := by
  induction rows generalizing x with
  | nil => rfl
  | cons d rows ih =>
    cases hm : d.metric with
    | none => simp [List.foldl_cons, maxStep, hm, nonNullVals, List.filterMap_cons, ih]
    | some v => simp [List.foldl_cons, maxStep, hm, nonNullVals, List.filterMap_cons, ih]

/-- `Series.max` is the maximum of the non-null values (`none` when there are
none). -/
theorem seriesMax_eq (rows : List DfRecord) :
    seriesMax rows =
      ((nonNullVals rows).head?).map fun v => (nonNullVals rows).tail.foldl max v := by
  induction rows with
  | nil => rfl
  | cons d rows ih =>
    cases hm : d.metric with
    | none =>
      have hstep : maxStep none d = none := by simp [maxStep, hm]
      show List.foldl maxStep (maxStep none d) rows = _
      rw [hstep]
      simpa [nonNullVals, List.filterMap_cons, hm] using ih
    | some v =>
      have hstep : maxStep none d = some v := by simp [maxStep, hm]
      show List.foldl maxStep (maxStep none d) rows = _
      rw [hstep, foldl_maxStep_some]
      simp [nonNullVals, List.filterMap_cons, hm]

/-- The fold of `max` is the seed or one of the list elements. -/
theorem foldl_max_mem (vs : List ℚ) (x : ℚ) :
    vs.foldl max x = x ∨ vs.foldl max x ∈ vs := by
  induction vs generalizing x with
  | nil => left; rfl
  | cons v vs ih =>
    rw [List.foldl_cons]
    rcases ih (max x v) with h | h
    · rcases le_total v x with hle | hle
      · left; rw [h, max_eq_left hle]
      · right; rw [h, max_eq_right hle]; exact List.mem_cons_self v vs
    · right; exact List.mem_cons_of_mem v h

/-- The fold of `max` bounds the seed and every list element. -/
theorem le_foldl_max (vs : List ℚ) (x : ℚ) :
    x ≤ vs.foldl max x ∧ ∀ v ∈ vs, v ≤ vs.foldl max x := by
  induction vs generalizing x with
  | nil => exact ⟨le_refl x, by simp⟩
  | cons v vs ih =>
    rw [List.foldl_cons]
    rcases ih (max x v) with ⟨h1, h2⟩
    refine ⟨le_trans (le_max_left x v) h1, ?_⟩
    intro w hw
    rcases List.mem_cons.mp hw with rfl | hw
    · exact le_trans (le_max_right x w) h1
    · exact h2 w hw

/-- The `values[0]` lookup of line 146 returns the name of the first record
whose metric equals the maximum. -/
theorem maxAreaName_eq_find (rows : List DfRecord) (M : ℚ)
    (h : seriesMax rows = some M) :
    maxAreaName rows =
      (rows.find? fun d => decide (d.metric = some M)).map DfRecord.communityAreaName := by
  unfold maxAreaName maxSelection
  rw [h, List.head?_map, head_of_filter]

/-! ### C2 -/

/-- C2: when the metric column has at least one non-null value, the narrative
generator's mean is the arithmetic mean of the non-null values, its maximum is
the greatest non-null value, and the reported area name is taken from the
first record whose metric equals that maximum. -/
theorem narrative_stats (rows : List DfRecord) (h : nonNullVals rows ≠ []) :
    seriesMean rows =
      some ((nonNullVals rows).sum / ((nonNullVals rows).length : ℚ)) ∧
    ∃ M, seriesMax rows = some M ∧ M ∈ nonNullVals rows ∧
      (∀ v ∈ nonNullVals rows, v ≤ M) ∧
      maxAreaName rows =
        (rows.find? fun d => decide (d.metric = some M)).map DfRecord.communityAreaName := by
  refine ⟨seriesMean_eq rows h, ?_⟩
  rcases hnn : nonNullVals rows with _ | ⟨v, vs⟩
  · exact absurd hnn h
  · have hmax : seriesMax rows = some (vs.foldl max v) := by
      rw [seriesMax_eq, hnn]
      rfl
    refine ⟨vs.foldl max v, hmax, ?_, ?_, maxAreaName_eq_find rows _ hmax⟩
    · rcases foldl_max_mem vs v with h1 | h1
      · rw [h1]; exact List.mem_cons_self v vs
      · exact List.mem_cons_of_mem v h1
    · intro w hw
      rcases List.mem_cons.mp hw with rfl | hw
      · exact (le_foldl_max vs w).1
      · exact (le_foldl_max vs v).2 w hw

/-- Witness for C2 on the spec's scenario rows: the mean evaluates to 15, the
maximum to 20, attributed to "AreaTwo". -/
theorem narrative_stats_witness :
    nonNullVals sampleDf ≠ [] ∧
    (seriesMean sampleDf =
        some ((nonNullVals sampleDf).sum / ((nonNullVals sampleDf).length : ℚ)) ∧
      ∃ M, seriesMax sampleDf = some M ∧ M ∈ nonNullVals sampleDf ∧
        (∀ v ∈ nonNullVals sampleDf, v ≤ M) ∧
        maxAreaName sampleDf =
          (sampleDf.find? fun d => decide (d.metric = some M)).map
            DfRecord.communityAreaName) ∧
    seriesMean sampleDf = some 15 ∧ seriesMax sampleDf = some 20 ∧
    maxAreaName sampleDf = some "AreaTwo" :=
  ⟨by decide, narrative_stats sampleDf (by decide),
   by simp [seriesMean, sumCountStep, sampleDf]; norm_num,
   by decide, by decide⟩

/-! ### C3 -/

/-- C3: the top-10 table holds records with the largest metric values, its
metric column is sorted descending, it has `min 10 n` rows where `n` is the
number of rows with a non-null metric, and every selected record is an
original record (all columns preserved) with a non-null metric. -/
theorem top10_table (rows : List DfRecord) :
    List.Sorted metricGe (nlargest 10 rows) ∧
    (nlargest 10 rows).length = min 10 (rows.filter fun d => d.metric.isSome).length ∧
    (∀ d ∈ nlargest 10 rows, d ∈ rows ∧ d.metric.isSome = true) ∧
    (∀ d ∈ nlargest 10 rows, ∀ e ∈ rows, e.metric.isSome = true →
      e ∉ nlargest 10 rows → metricVal e ≤ metricVal d) := by
  have hn : nlargest 10 rows =
      (List.insertionSort metricGe (rows.filter fun d => d.metric.isSome)).take 10 := rfl
  set s := List.insertionSort metricGe (rows.filter fun d => d.metric.isSome) with hs
  have hsorted : List.Sorted metricGe s := List.sorted_insertionSort metricGe _
  have hperm := List.perm_insertionSort metricGe (rows.filter fun d => d.metric.isSome)
  refine ⟨?_, ?_, ?_, ?_⟩
  · rw [hn]
    exact List.Pairwise.sublist (List.take_sublist 10 s) hsorted
  · rw [hn, List.length_take, hs, List.length_insertionSort]
  · intro d hd
    rw [hn] at hd
    have hds : d ∈ s := List.take_subset 10 s hd
    have := hperm.mem_iff.mp hds
    exact ⟨(List.mem_filter.mp this).1, (List.mem_filter.mp this).2⟩
  · intro d hd e he hsome hnotin
    rw [hn] at hd hnotin
    have he2 : e ∈ s := hperm.mem_iff.mpr (List.mem_filter.mpr ⟨he, hsome⟩)
    have he3 : e ∈ s.take 10 ++ s.drop 10 := by
      rw [List.take_append_drop]; exact he2
    have hedrop : e ∈ s.drop 10 := by
      rcases List.mem_append.mp he3 with h | h
      · exact absurd h hnotin
      · exact h
    have hsorted2 : List.Pairwise metricGe (s.take 10 ++ s.drop 10) := by
      rw [List.take_append_drop]; exact hsorted
    exact (List.pairwise_append.mp hsorted2).2.2 d hd e hedrop

/-- An eleven-row table (metric values 1..11) exercising the top-10 cut. -/
def bigDf : List DfRecord :=
  [⟨.num 1, "B1", some 1⟩, ⟨.num 2, "B2", some 2⟩, ⟨.num 3, "B3", some 3⟩,
   ⟨.num 4, "B4", some 4⟩, ⟨.num 5, "B5", some 5⟩, ⟨.num 6, "B6", some 6⟩,
   ⟨.num 7, "B7", some 7⟩, ⟨.num 8, "B8", some 8⟩, ⟨.num 9, "B9", some 9⟩,
   ⟨.num 10, "B10", some 10⟩, ⟨.num 11, "B11", some 11⟩]

/-- Witness for C3: on the eleven-row table the smallest record is cut and is
bounded by a selected record. -/
theorem top10_table_witness :
    (⟨.num 11, "B11", some 11⟩ : DfRecord) ∈ nlargest 10 bigDf ∧
    (⟨.num 1, "B1", some 1⟩ : DfRecord) ∈ bigDf ∧
    (⟨.num 1, "B1", some 1⟩ : DfRecord).metric.isSome = true ∧
    (⟨.num 1, "B1", some 1⟩ : DfRecord) ∉ nlargest 10 bigDf ∧
    metricVal ⟨.num 1, "B1", some 1⟩ ≤ metricVal ⟨.num 11, "B11", some 11⟩ :=
  ⟨by decide, by decide, rfl, by decide,
    (top10_table bigDf).2.2.2 ⟨.num 11, "B11", some 11⟩ (by decide)
      ⟨.num 1, "B1", some 1⟩ (by decide) rfl (by decide)⟩

/-! ### C4 -/

/-- C4: a missing input file aborts the run with an error naming that path and
no output file written; both inputs present but the configured metric column
absent from the tabular data also aborts before any write. -/
theorem fail_fast_before_writes (env : Env) :
    (env.geoFile = none →
      runScript env =
        [Event.mkdirOutput, Event.raise ("Missing GeoJSON: " ++ GEO_PATH)] ∧
      writtenFiles (runScript env) = []) ∧
    (env.geoFile ≠ none → env.csvFile = none →
      runScript env =
        [Event.mkdirOutput, Event.raise ("Missing CSV: " ++ CSV_PATH)] ∧
      writtenFiles (runScript env) = []) ∧
    (∀ g c, env.geoFile = some g → env.csvFile = some c → metric ∉ c.columns →
      runScript env =
        [Event.mkdirOutput,
          Event.raise ("Column \"" ++ metric ++ "\" not found in CSV.")] ∧
      writtenFiles (runScript env) = []) := by
  obtain ⟨gf, cf, am⟩ := env
  refine ⟨?_, ?_, ?_⟩
  · intro hg
    subst hg
    exact ⟨rfl, rfl⟩
  · intro hg hc
    subst hc
    cases gf with
    | none => exact absurd rfl hg
    | some g => exact ⟨rfl, rfl⟩
  · intro g c hg hc hcol
    subst hg
    subst hc
    constructor
    · simp only [runScript]
      rw [if_neg hcol]
    · simp only [runScript, writtenFiles]
      rw [if_neg hcol]
      rfl

/-- A run with the boundary file absent. -/
def envMissingGeo : Env := ⟨none, some sampleCsv, 0⟩

/-- A run with the tabular file absent. -/
def envMissingCsv : Env := ⟨some sampleGeo, none, 0⟩

/-- A tabular file without the configured metric column. -/
def csvNoMetric : Csv := ⟨["Community Area", "Community Area Name"], sampleDf⟩

/-- A run whose tabular file lacks the metric column. -/
def envMissingCol : Env := ⟨some sampleGeo, some csvNoMetric, 0⟩

/-- Witness for C4 at the three failing environments. -/
theorem fail_fast_before_writes_witness :
    (runScript envMissingGeo =
        [Event.mkdirOutput, Event.raise ("Missing GeoJSON: " ++ GEO_PATH)] ∧
      writtenFiles (runScript envMissingGeo) = []) ∧
    (runScript envMissingCsv =
        [Event.mkdirOutput, Event.raise ("Missing CSV: " ++ CSV_PATH)] ∧
      writtenFiles (runScript envMissingCsv) = []) ∧
    (runScript envMissingCol =
        [Event.mkdirOutput,
          Event.raise ("Column \"" ++ metric ++ "\" not found in CSV.")] ∧
      writtenFiles (runScript envMissingCol) = []) :=
  ⟨(fail_fast_before_writes envMissingGeo).1 rfl,
   (fail_fast_before_writes envMissingCsv).2.1 (by decide) rfl,
   (fail_fast_before_writes envMissingCol).2.2 sampleGeo csvNoMetric rfl rfl (by decide)⟩

/-! ### C5 -/

/-- C5: the poster renderer labels exactly the joined records with a non-null
metric, at the polygon centroid, with the value formatted to one decimal
place; in the spec's three-polygon scenario polygons 1 and 2 are labeled
"10.0" and "20.0" and polygon 3 gets no label. -/
theorem poster_centroid_labels :
    (∀ merged : List MergedRecord,
      posterLabels merged =
        (merged.filter fun m => (mergedMetric m).isSome).map fun m =>
          (m.geo.geometry.centroidX, m.geo.geometry.centroidY,
            fmt1 ((mergedMetric m).getD 0))) ∧
    posterLabels (mergeLeft (astypeGeo sampleGeo) (astypeDf sampleDf)) =
      [(0, 0, "10.0"), (1, 0, "20.0")] := by
  constructor
  · intro merged
    induction merged with
    | nil => rfl
    | cons m l ih =>
      cases hm : mergedMetric m with
      | none =>
        simp only [posterLabels] at ih ⊢
        simp [List.filterMap_cons, List.filter_cons, hm, ih]
      | some v =>
        simp only [posterLabels] at ih ⊢
        simp [List.filterMap_cons, List.filter_cons, hm, ih]
  · decide

/-! ### C6 -/

/-- C6: the top-10 table content and the narrative content are functions of
the two input files alone: two runs whose inputs agree write byte-for-byte
identical table and story content, even when the ambient metadata embedded in
the raster/HTML outputs differs between the runs. -/
theorem table_story_deterministic (e1 e2 : Env)
    (hg : e1.geoFile = e2.geoFile) (hc : e1.csvFile = e2.csvFile) :
    contentOf OutputFile.table (runScript e1) =
      contentOf OutputFile.table (runScript e2) ∧
    contentOf OutputFile.story (runScript e1) =
      contentOf OutputFile.story (runScript e2) := by
  obtain ⟨g1, c1, m1⟩ := e1
  obtain ⟨g2, c2, m2⟩ := e2
  replace hg : g1 = g2 := hg
  replace hc : c1 = c2 := hc
  subst hg
  subst hc
  cases g1 with
  | none => exact ⟨rfl, rfl⟩
  | some geo =>
    cases c1 with
    | none => exact ⟨rfl, rfl⟩
    | some csv =>
      by_cases hcol : metric ∈ csv.columns
      · simp only [runScript, if_pos hcol]
        cases hma : maxAreaName (astypeDf csv.rows) <;>
          simp [hma, contentOf]
      · simp [runScript, if_neg hcol]

/-- A healthy run of the pipeline on the scenario inputs. -/
def envRunA : Env := ⟨some sampleGeo, some sampleCsv, 0⟩

/-- The same inputs with different ambient metadata (e.g. a later clock). -/
def envRunB : Env := ⟨some sampleGeo, some sampleCsv, 1⟩

/-- Witness for C6: two runs differing only in ambient metadata. -/
theorem table_story_deterministic_witness :
    envRunA.geoFile = envRunB.geoFile ∧ envRunA.csvFile = envRunB.csvFile ∧
    (contentOf OutputFile.table (runScript envRunA) =
        contentOf OutputFile.table (runScript envRunB) ∧
      contentOf OutputFile.story (runScript envRunA) =
        contentOf OutputFile.story (runScript envRunB)) :=
  ⟨rfl, rfl, table_story_deterministic envRunA envRunB rfl rfl⟩

/-! ### C7 -/

/-- The indicator collection as created by the loader (line 43). -/
def dfAtLoad (c : Csv) : List DfRecord := c.rows

/-- The indicator collection observed downstream of line 56: the script's
`df` variable after its key column was overwritten in place. -/
def dfAfterKeyOverwrite (c : Csv) : List DfRecord := astypeDf c.rows

/-- A tabular file whose key column is numeric, as `read_csv` infers it. -/
def cexCsv : Csv :=
  ⟨["Community Area", "Community Area Name", metric], [⟨.num 1, "AreaOne", some 10⟩]⟩

/-- Counterexample to C7 as stated: the loaded indicator collection IS
mutated after its creation — line 56 overwrites its key column in place, so
the collection observed by every later step differs from the one created by
the loader. -/
theorem loaded_df_is_mutated :
    dfAfterKeyOverwrite cexCsv ≠ dfAtLoad cexCsv := by
  decide

/-- C7 (amended): each loaded collection is mutated exactly once — lines
56-57 overwrite its key column with the key's string form, an idempotent
normalization — and everything after that is a pure derivation of the two
normalized collections, with no further mutation. -/
theorem normalize_once_then_pure (c : Csv) (geo : List GeoRecord) (env : Env)
    (hg : env.geoFile = some geo) (hc : env.csvFile = some c)
    (hcol : metric ∈ c.columns) :
    astypeDf (astypeDf c.rows) = astypeDf c.rows ∧
    astypeGeo (astypeGeo geo) = astypeGeo geo ∧
    runScript env =
      scriptFromNormalized (astypeGeo geo) (astypeDf c.rows) env.ambientMeta := by
  refine ⟨?_, ?_, ?_⟩
  · show (c.rows.map astypeD).map astypeD = c.rows.map astypeD
    rw [List.map_map]
    exact List.map_congr_left fun d _ => rfl
  · show (geo.map astypeG).map astypeG = geo.map astypeG
    rw [List.map_map]
    exact List.map_congr_left fun g _ => rfl
  · obtain ⟨gf, cf, am⟩ := env
    replace hg : gf = some geo := hg
    replace hc : cf = some c := hc
    subst hg
    subst hc
    simp only [runScript, scriptFromNormalized, if_pos hcol]

/-- Witness for C7's amended statement on the scenario run. -/
theorem normalize_once_then_pure_witness :
    metric ∈ sampleCsv.columns ∧
    astypeDf (astypeDf sampleCsv.rows) = astypeDf sampleCsv.rows ∧
    runScript envRunA =
      scriptFromNormalized (astypeGeo sampleGeo) (astypeDf sampleCsv.rows)
        envRunA.ambientMeta :=
  ⟨by decide,
   (normalize_once_then_pure sampleCsv sampleGeo envRunA rfl rfl (by decide)).1,
   (normalize_once_then_pure sampleCsv sampleGeo envRunA rfl rfl (by decide)).2.2⟩

/-! ### C8 -/

/-- C8: two keys denoting the same area identifier but differing in
numeric-versus-string typing normalize to the same canonical text, and the
join then matches the records instead of leaving the polygon unmatched. -/
theorem key_normalization_matches (g : GeoRecord) (d : DfRecord) (n : ℤ)
    (hg : g.area_numbe = .num n ∨ g.area_numbe = .str (toString n))
    (hd : d.communityArea = .num n ∨ d.communityArea = .str (toString n)) :
    astypeCell g.area_numbe = astypeCell d.communityArea ∧
    ∀ geo df, g ∈ geo → d ∈ df →
      ∃ m ∈ mergeLeft (astypeGeo geo) (astypeDf df),
        m.geo = astypeG g ∧ m.ind ≠ none := by
  have hkey : astypeCell g.area_numbe = astypeCell d.communityArea := by
    rcases hg with hg | hg <;> rcases hd with hd | hd <;> simp [hg, hd, astypeCell]
  refine ⟨hkey, ?_⟩
  intro geo df hgm hdm
  have hdmem : astypeD d ∈ (astypeDf df).filter
      (fun x => decide (x.communityArea = (astypeG g).area_numbe)) := by
    refine List.mem_filter.mpr ⟨List.mem_map_of_mem astypeD hdm, ?_⟩
    simp [astypeD, astypeG, hkey]
  have hne : ¬ ((astypeDf df).filter
      (fun x => decide (x.communityArea = (astypeG g).area_numbe))).isEmpty = true := by
    intro hemp
    rw [List.isEmpty_iff] at hemp
    rw [hemp] at hdmem
    exact List.not_mem_nil _ hdmem
  refine ⟨⟨astypeG g, some (astypeD d)⟩, ?_, rfl, by simp⟩
  apply List.mem_flatMap.mpr
  refine ⟨astypeG g, List.mem_map_of_mem astypeG hgm, ?_⟩
  unfold joinRow
  rw [if_neg hne]
  exact List.mem_map_of_mem _ hdmem

/-- Witness for C8: the scenario's polygon "2" (text key) matched with the
tabular row 2 (numeric key). -/
theorem key_normalization_matches_witness :
    astypeCell (CellVal.str "2") = astypeCell (CellVal.num 2) ∧
    ∃ m ∈ mergeLeft (astypeGeo sampleGeo) (astypeDf sampleDf),
      m.geo = astypeG ⟨.str "2", ⟨1, 0⟩⟩ ∧ m.ind ≠ none :=
  ⟨(key_normalization_matches ⟨.str "2", ⟨1, 0⟩⟩ ⟨.num 2, "AreaTwo", some 20⟩ 2
      (Or.inr (by decide)) (Or.inl rfl)).1,
   (key_normalization_matches ⟨.str "2", ⟨1, 0⟩⟩ ⟨.num 2, "AreaTwo", some 20⟩ 2
      (Or.inr (by decide)) (Or.inl rfl)).2 sampleGeo sampleDf
      (by decide) (by decide)⟩

/-! ### C9 -/

/-- With an all-null metric column the positional lookup of line 146 finds
nothing. -/
theorem maxAreaName_of_all_null (rows : List DfRecord)
    (h : ∀ d ∈ rows, d.metric = none) :
    maxAreaName rows = none := by
  have hnn : nonNullVals rows = [] := List.filterMap_eq_nil_iff.mpr h
  have hmax : seriesMax rows = none := by
    rw [seriesMax_eq, hnn]
    rfl
  unfold maxAreaName maxSelection
  rw [hmax]
  rfl

/-- C9: when the metric column has no non-null value, the five earlier
outputs are written, the run then raises the index error of the empty
positional lookup, and the narrative file is never written. -/
theorem all_null_story_not_written (env : Env) (geo : List GeoRecord) (c : Csv)
    (hg : env.geoFile = some geo) (hc : env.csvFile = some c)
    (hcol : metric ∈ c.columns) (hnull : ∀ d ∈ c.rows, d.metric = none) :
    writtenFiles (runScript env) =
      [OutputFile.poster, OutputFile.htmlMap, OutputFile.table,
        OutputFile.barChart, OutputFile.histogram] ∧
    (runScript env).getLast? = some (Event.raise indexErrMsg) ∧
    ∀ s, Event.write OutputFile.story s ∉ runScript env := by
  obtain ⟨gf, cf, am⟩ := env
  replace hg : gf = some geo := hg
  replace hc : cf = some c := hc
  subst hg
  subst hc
  have hnull2 : ∀ d ∈ astypeDf c.rows, d.metric = none := by
    intro d hd
    rcases List.mem_map.mp hd with ⟨d0, hd0, rfl⟩
    exact hnull d0 hd0
  have hma : maxAreaName (astypeDf c.rows) = none := maxAreaName_of_all_null _ hnull2
  simp only [runScript, if_pos hcol, hma]
  refine ⟨rfl, rfl, ?_⟩
  intro s hs
  simp at hs

/-- A tabular file whose metric column is entirely null. -/
def nullCsv : Csv :=
  ⟨["Community Area", "Community Area Name", metric],
   [⟨.num 1, "AreaOne", none⟩, ⟨.num 2, "AreaTwo", none⟩]⟩

/-- A run on the all-null tabular file. -/
def envNull : Env := ⟨some sampleGeo, some nullCsv, 0⟩

/-- Witness for C9 on the all-null run. -/
theorem all_null_story_not_written_witness :
    metric ∈ nullCsv.columns ∧ (∀ d ∈ nullCsv.rows, d.metric = none) ∧
    writtenFiles (runScript envNull) =
      [OutputFile.poster, OutputFile.htmlMap, OutputFile.table,
        OutputFile.barChart, OutputFile.histogram] ∧
    (runScript envNull).getLast? = some (Event.raise indexErrMsg) :=
  ⟨by decide, by decide,
   (all_null_story_not_written envNull sampleGeo nullCsv rfl rfl (by decide)
      (by decide)).1,
   (all_null_story_not_written envNull sampleGeo nullCsv rfl rfl (by decide)
      (by decide)).2.1⟩

/-! ### C10 -/

/-- C10: the `os.makedirs` of the output directory is every run's first
effect — it precedes the input-existence checks — so a run aborting on a
missing input has still created the directory while writing no file into
it. -/
theorem outdir_created_first (env : Env) :
    (runScript env).head? = some Event.mkdirOutput ∧
    (env.geoFile = none ∨ env.csvFile = none →
      Event.mkdirOutput ∈ runScript env ∧ writtenFiles (runScript env) = []) := by
  obtain ⟨gf, cf, am⟩ := env
  refine ⟨rfl, ?_⟩
  intro h
  rcases h with h | h
  · replace h : gf = none := h
    subst h
    exact ⟨List.mem_cons_self _ _, rfl⟩
  · replace h : cf = none := h
    subst h
    cases gf with
    | none => exact ⟨List.mem_cons_self _ _, rfl⟩
    | some g => exact ⟨List.mem_cons_self _ _, rfl⟩

/-- Witness for C10 on the missing-boundary-file run. -/
theorem outdir_created_first_witness :
    Event.mkdirOutput ∈ runScript envMissingGeo ∧
    writtenFiles (runScript envMissingGeo) = [] :=
  (outdir_created_first envMissingGeo).2 (Or.inl rfl)

end ChicagoHealth
